import Mathlib

/-!
A shallow embedding of the IDS (Information Delivery Specification) parser and
audit engine of `src/lib/IDSParser.ts` and `src/lib/IDSAuditEngine.ts`.

JavaScript numbers that may be `NaN` are embedded as `Option ℚ` (`none` = NaN);
decimal string parsing is exact over `ℚ` (binary floating point rounding is not
modelled, no claim here depends on it).  A JavaScript value flowing into the
value matcher is embedded as `Option String`: `none` for `null`/`undefined`,
`some s` for a value whose string coercion is `s` (the matcher only ever uses
`String(actual)` besides the null test).  Regular-expression testing is kept
abstract as a `String → String → Bool` parameter of the engine.
-/

namespace IDSViewer

/-- A JavaScript `number` that may be `NaN`: `none` is NaN. -/
abbrev JSNum := Option ℚ

/-- JavaScript `a || d` for a possibly-null string `a`: the default is taken
both when `a` is null/undefined and when it is the empty string (falsy). -/
def jsOrStr (a : Option String) (d : String) : String :=
  match a with
  | some s => if s = "" then d else s
  | none => d

/-- JavaScript truthiness of a `string | undefined` value:
false for `undefined` and for the empty string. -/
def jsTruthyStr (a : Option String) : Bool :=
  match a with
  | some s => s ≠ ""
  | none => false

/-- Rendering a possibly-null string into a template literal: JavaScript
prints `null` for a null value. -/
def jsTemplateStr (a : Option String) : String :=
  match a with
  | some s => s
  | none => "null"

/-- `x < b` where the bound `b` may be NaN: any comparison with NaN is false. -/
def jsLtNum (x : ℚ) (b : JSNum) : Bool :=
  match b with
  | some q => x < q
  | none => false

/-- `x > b` where the bound `b` may be NaN: any comparison with NaN is false. -/
def jsGtNum (x : ℚ) (b : JSNum) : Bool :=
  match b with
  | some q => x > q
  | none => false

/-- Decimal rendering of a `JSNum` for message strings (`NaN` prints as in
JavaScript; non-integral rationals are rendered as fractions, an
approximation of JavaScript's decimal formatting that no theorem observes). -/
def jsNumToString (n : JSNum) : String :=
  match n with
  | none => "NaN"
  | some q => if q.den = 1 then toString q.num else toString q.num ++ "/" ++ toString q.den

/-- Insertion-ordered de-duplication, the behaviour of `new Set(list)`
iterated back into an array: first occurrences survive, in order. -/
def jsSetDedup (l : List ℕ) : List ℕ :=
  l.foldl (fun acc x => if x ∈ acc then acc else acc ++ [x]) []

/-- Value of a digit character. -/
def digitVal (c : Char) : ℕ := c.toNat - '0'.toNat

/-- Accumulate a digit list into a natural number (most significant first). -/
def digitsToNat (ds : List Char) : ℕ :=
  ds.foldl (fun acc c => 10 * acc + digitVal c) 0

/-- JavaScript `parseInt(s, 10)`: skip leading whitespace, optional sign,
then the maximal digit prefix; NaN (`none`) when no digit is found. -/
def parseIntJS (s : String) : JSNum :=
  let cs := s.toList.dropWhile (·.isWhitespace)
  let (sign, cs) : ℚ × List Char :=
    match cs with
    | '-' :: rest => (-1, rest)
    | '+' :: rest => (1, rest)
    | _ => (1, cs)
  let digits := cs.takeWhile (·.isDigit)
  if digits.isEmpty then none
  else some (sign * (digitsToNat digits : ℚ))

/-- JavaScript `parseFloat(s)`: skip leading whitespace, optional sign,
integer digits, optional fraction digits, optional exponent (consumed only
when it has digits); NaN (`none`) when no digit is found before the
exponent.  (`Infinity` is not modelled and reads as NaN; no claim
evaluates it.) -/
def parseFloatJS (s : String) : JSNum :=
  let cs := s.toList.dropWhile (·.isWhitespace)
  let (sign, cs) : ℚ × List Char :=
    match cs with
    | '-' :: rest => (-1, rest)
    | '+' :: rest => (1, rest)
    | _ => (1, cs)
  let intDigits := cs.takeWhile (·.isDigit)
  let rest := cs.dropWhile (·.isDigit)
  let (fracDigits, rest') : List Char × List Char :=
    match rest with
    | '.' :: r => (r.takeWhile (·.isDigit), r.dropWhile (·.isDigit))
    | _ => ([], rest)
  if intDigits.isEmpty ∧ fracDigits.isEmpty then none
  else
    let base : ℚ := (digitsToNat intDigits : ℚ) +
      (digitsToNat fracDigits : ℚ) / ((10 : ℚ) ^ fracDigits.length)
    let expPart : ℤ :=
      match rest' with
      | 'e' :: r | 'E' :: r =>
        let (esign, r') : ℤ × List Char :=
          match r with
          | '-' :: rr => (-1, rr)
          | '+' :: rr => (1, rr)
          | _ => (1, r)
        let eds := r'.takeWhile (·.isDigit)
        if eds.isEmpty then 0 else esign * (digitsToNat eds : ℤ)
      | _ => 0
    some (sign * base * (10 : ℚ) ^ expPart)

/-! ## The specification document model (`IDSParser.ts` interfaces) -/

/-- `IDSRestriction`: an XSD-style restriction; absent fields are `none`.
A numeric field, when present, may itself be NaN (inner `none`). -/
structure IDSRestriction where
  base : String
  pattern : Option String := none
  enumeration : Option (List String) := none
  minLength : Option JSNum := none
  maxLength : Option JSNum := none
  minInclusive : Option JSNum := none
  maxInclusive : Option JSNum := none
  deriving Repr, DecidableEq

/-- `IDSValue`: a simple literal or a restriction. -/
inductive IDSValue where
  | simple (value : String)
  | restriction (r : IDSRestriction)
  deriving Repr, DecidableEq

structure IDSEntityFacet where
  name : IDSValue
  predefinedType : Option IDSValue := none
  deriving Repr, DecidableEq

structure IDSClassificationFacet where
  system : Option IDSValue := none
  value : Option IDSValue := none
  deriving Repr, DecidableEq

structure IDSAttributeFacet where
  name : IDSValue
  value : Option IDSValue := none
  deriving Repr, DecidableEq

structure IDSPropertyFacet where
  propertySet : IDSValue
  baseName : IDSValue
  value : Option IDSValue := none
  dataType : Option String := none
  deriving Repr, DecidableEq

structure IDSMaterialFacet where
  value : Option IDSValue := none
  deriving Repr, DecidableEq

structure IDSPartOfFacet where
  entity : IDSValue
  relation : Option String := none
  deriving Repr, DecidableEq

/-- `IDSAnyFacet`: the closed union of the six facet kinds. -/
inductive IDSAnyFacet where
  | entity (f : IDSEntityFacet)
  | classification (f : IDSClassificationFacet)
  | attr (f : IDSAttributeFacet)
  | property (f : IDSPropertyFacet)
  | material (f : IDSMaterialFacet)
  | partOf (f : IDSPartOfFacet)
  deriving Repr, DecidableEq

/-- The `facet.type` discriminator string. -/
def facetTypeName : IDSAnyFacet → String
  | .entity _ => "entity"
  | .classification _ => "classification"
  | .attr _ => "attribute"
  | .property _ => "property"
  | .material _ => "material"
  | .partOf _ => "partOf"

/-- `maxOccurs`: `'unbounded'` or a parsed number (possibly NaN). -/
inductive MaxOccurs where
  | unbounded
  | num (n : JSNum)
  deriving Repr, DecidableEq

structure IDSRequirement where
  facet : IDSAnyFacet
  minOccurs : JSNum
  maxOccurs : MaxOccurs
  instructions : Option String := none
  deriving Repr, DecidableEq

structure IDSSpecification where
  name : String
  description : Option String := none
  instructions : Option String := none
  ifcVersion : Option (List String) := none
  applicability : List IDSAnyFacet
  requirements : List IDSRequirement
  deriving Repr, DecidableEq

structure IDSFile where
  title : String
  version : Option String := none
  author : Option String := none
  date : Option String := none
  purpose : Option String := none
  specifications : List IDSSpecification
  deriving Repr, DecidableEq

/-! ## Value matching (`IDSAuditEngine.matchesValue` and helpers) -/

/-- `getSimpleValue`: the string carried by a literal, or the sole member of
a one-element enumeration; `null` otherwise. -/
def getSimpleValue : Option IDSValue → Option String
  | none => none
  | some (.simple v) => some v
  | some (.restriction r) =>
    match r.enumeration with
    | some [e] => some e
    | _ => none

/-- `matchesValue(actual, expected)`: `regexTest pattern str` abstracts
`new RegExp(pattern).test(str)` (an invalid pattern is modelled by the
abstract function returning false, as the source's `catch` does). -/
def matchesValue (regexTest : String → String → Bool)
    (actual : Option String) (expected : IDSValue) : Bool :=
  match actual with
  | none => false
  | some actualStr =>
    match expected with
    | .simple v => actualStr.toLower == v.toLower
    | .restriction r =>
      match r.enumeration with
      | some es => es.any (fun e => actualStr.toLower == e.toLower)
      | none =>
        if jsTruthyStr r.pattern then
          regexTest (jsOrStr r.pattern "") actualStr
        else
          if (match r.minLength with
              | some b => jsLtNum (actualStr.length : ℚ) b
              | none => false) then false
          else if (match r.maxLength with
              | some b => jsGtNum (actualStr.length : ℚ) b
              | none => false) then false
          else
            match parseFloatJS actualStr with
            | some numVal =>
              if (match r.minInclusive with
                  | some b => jsLtNum numVal b
                  | none => false) then false
              else if (match r.maxInclusive with
                  | some b => jsGtNum numVal b
                  | none => false) then false
              else true
            | none => true

/-- The engine's call-site treatment of an absent constraint
(`!facet.value || this.matchesValue(actual, facet.value)` and the checkers'
`if (facet.value) … else PASS`): a wholly absent constraint means
"don't care". -/
def matchesOptValue (regexTest : String → String → Bool)
    (actual : Option String) (expected : Option IDSValue) : Bool :=
  match expected with
  | none => true
  | some e => matchesValue regexTest actual e

/-- `getValueDescription` (`IDSParser.ts`). -/
def getValueDescription : Option IDSValue → String
  | none => "any"
  | some (.simple v) => v
  | some (.restriction r) =>
    match r.enumeration with
    | some es => String.intercalate " | " es
    | none =>
      if jsTruthyStr r.pattern then "pattern: " ++ jsOrStr r.pattern ""
      else
        let parts : List String :=
          (match r.minLength with
            | some b => ["min length: " ++ jsNumToString b]
            | none => []) ++
          (match r.maxLength with
            | some b => ["max length: " ++ jsNumToString b]
            | none => []) ++
          (match r.minInclusive with
            | some b => [">= " ++ jsNumToString b]
            | none => []) ++
          (match r.maxInclusive with
            | some b => ["<= " ++ jsNumToString b]
            | none => [])
        if parts.length > 0 then String.intercalate ", " parts else "restricted"

/-! ## The audit engine (`IDSAuditEngine.ts`) -/

inductive Status where
  | PASS
  | FAIL
  | WARNING
  | NOT_APPLICABLE
  deriving Repr, DecidableEq

/-- The `{status, message, details?}` record returned by the facet checkers. -/
structure CheckOutcome where
  status : Status
  message : String
  details : Option String := none
  deriving Repr, DecidableEq

structure AuditResult where
  status : Status
  elementId : ℕ
  elementName : String
  elementType : String
  specificationName : String
  requirementDescription : String
  message : String
  details : Option String := none
  deriving Repr, DecidableEq

structure AuditSummary where
  totalElements : ℕ
  testedElements : ℕ
  totalRequirements : ℕ
  pass : ℕ
  fail : ℕ
  warning : ℕ
  notApplicable : ℕ
  score : ℤ
  results : List AuditResult
  deriving Repr, DecidableEq

/-- An element record as seen through `getElement`/`getValue`: a map from
attribute name to the unwrapped value (already string-coerced; `none` when
the attribute is null/undefined after `getValue`). -/
structure ElementRec where
  attrs : String → Option String

/-- A `{system, value}` pair produced by `getClassifications`. -/
structure ClassificationEntry where
  system : String
  value : String
  deriving Repr, DecidableEq

/-- The engine's access to the model (`ifcApi` plus the private accessor
methods): spec §6 treats these as an external adapter whose calls may
throw (`ModelAccessError`), hence the `Except String` results on the
accessors the facet checkers await. -/
structure IDSAuditEngine where
  getElement : ℕ → Option ElementRec
  getTypeName : ℕ → String
  getPropertyValue : ℕ → String → String → Except String (Option String)
  getClassifications : ℕ → Except String (List ClassificationEntry)
  getMaterials : ℕ → Except String (List String)
  findMatchingElements : IDSAnyFacet → List ℕ
  totalElementCount : ℕ
  regexTest : String → String → Bool

/-- `checkPropertyFacet`. -/
def checkPropertyFacet (engine : IDSAuditEngine) (elementId : ℕ)
    (facet : IDSPropertyFacet) (minOccurs : JSNum) :
    Except String CheckOutcome := do
  let psetName := jsOrStr (getSimpleValue (some facet.propertySet)) ""
  let propName := jsOrStr (getSimpleValue (some facet.baseName)) ""
  let propValue ← engine.getPropertyValue elementId psetName propName
  match propValue with
  | none =>
    if minOccurs = some 0 then
      pure { status := .PASS
             message := "Propriété optionnelle \"" ++ propName ++ "\" absente (autorisé)" }
    else
      pure { status := .FAIL
             message := "Propriété \"" ++ propName ++ "\" manquante dans \"" ++ psetName ++ "\"" }
  | some pv =>
    match facet.value with
    | some fv =>
      if matchesValue engine.regexTest (some pv) fv then
        pure { status := .PASS
               message := "Propriété \"" ++ propName ++ "\" = \"" ++ pv ++ "\" ✓"
               details := some ("Valeur attendue: " ++ getValueDescription (some fv)) }
      else
        pure { status := .FAIL
               message := "Propriété \"" ++ propName ++ "\" = \"" ++ pv ++ "\" (non conforme)"
               details := some ("Valeur attendue: " ++ getValueDescription (some fv)) }
    | none =>
      pure { status := .PASS
             message := "Propriété \"" ++ propName ++ "\" présente = \"" ++ pv ++ "\"" }

/-- `checkAttributeFacet` (total: the attribute is read off the cached
element record). -/
def checkAttributeFacet (engine : IDSAuditEngine) (elementId : ℕ)
    (facet : IDSAttributeFacet) (minOccurs : JSNum) : CheckOutcome :=
  let attrName := jsOrStr (getSimpleValue (some facet.name)) ""
  let attrValue := (engine.getElement elementId).bind (fun e => e.attrs attrName)
  match attrValue with
  | none =>
    if minOccurs = some 0 then
      { status := .PASS
        message := "Attribut optionnel \"" ++ attrName ++ "\" absent (autorisé)" }
    else
      { status := .FAIL, message := "Attribut \"" ++ attrName ++ "\" manquant" }
  | some av =>
    match facet.value with
    | some fv =>
      if matchesValue engine.regexTest (some av) fv then
        { status := .PASS
          message := "Attribut \"" ++ attrName ++ "\" = \"" ++ av ++ "\" ✓" }
      else
        { status := .FAIL
          message := "Attribut \"" ++ attrName ++ "\" = \"" ++ av ++ "\" (non conforme)"
          details := some ("Valeur attendue: " ++ getValueDescription (some fv)) }
    | none =>
      { status := .PASS, message := "Attribut \"" ++ attrName ++ "\" présent" }

/-- `checkClassificationFacet`. -/
def checkClassificationFacet (engine : IDSAuditEngine) (elementId : ℕ)
    (facet : IDSClassificationFacet) (minOccurs : JSNum) :
    Except String CheckOutcome := do
  let classifications ← engine.getClassifications elementId
  if classifications.length = 0 then
    if minOccurs = some 0 then
      pure { status := .PASS, message := "Classification optionnelle absente (autorisé)" }
    else
      pure { status := .FAIL, message := "Aucune classification trouvée" }
  else
    let firstMatch := classifications.find? (fun cls =>
      (match facet.system with
        | some s => matchesValue engine.regexTest (some cls.system) s
        | none => true) &&
      (match facet.value with
        | some v => matchesValue engine.regexTest (some cls.value) v
        | none => true))
    match firstMatch with
    | some cls =>
      pure { status := .PASS
             message := "Classification \"" ++ cls.system ++ ": " ++ cls.value ++ "\" ✓" }
    | none =>
      pure { status := .FAIL
             message := "Classification non conforme. Trouvé: " ++
               String.intercalate ", "
                 (classifications.map (fun c => c.system ++ ":" ++ c.value)) }

/-- `checkMaterialFacet`. -/
def checkMaterialFacet (engine : IDSAuditEngine) (elementId : ℕ)
    (facet : IDSMaterialFacet) (minOccurs : JSNum) :
    Except String CheckOutcome := do
  let materials ← engine.getMaterials elementId
  if materials.length = 0 then
    if minOccurs = some 0 then
      pure { status := .PASS, message := "Matériau optionnel absent (autorisé)" }
    else
      pure { status := .FAIL, message := "Aucun matériau assigné" }
  else
    match facet.value with
    | some fv =>
      match materials.find? (fun mat => matchesValue engine.regexTest (some mat) fv) with
      | some mat =>
        pure { status := .PASS, message := "Matériau \"" ++ mat ++ "\" ✓" }
      | none =>
        pure { status := .FAIL
               message := "Matériau non conforme. Trouvé: " ++
                 String.intercalate ", " materials }
    | none =>
      pure { status := .PASS
             message := "Matériau présent: " ++ String.intercalate ", " materials }

/-- `checkFacet`: facet-kind dispatch; entity/partOf requirements are
`NOT_APPLICABLE`. -/
def checkFacet (engine : IDSAuditEngine) (elementId : ℕ)
    (facet : IDSAnyFacet) (minOccurs : JSNum) : Except String CheckOutcome :=
  match facet with
  | .property f => checkPropertyFacet engine elementId f minOccurs
  | .attr f => pure (checkAttributeFacet engine elementId f minOccurs)
  | .classification f => checkClassificationFacet engine elementId f minOccurs
  | .material f => checkMaterialFacet engine elementId f minOccurs
  | _ => pure { status := .NOT_APPLICABLE, message := "Type de vérification non supporté" }

/-- `getRequirementDescription`. -/
def getRequirementDescription (req : IDSRequirement) : String :=
  let optional := if req.minOccurs = some 0 then " (optionnel)" else ""
  match req.facet with
  | .property pf =>
    let pset := jsOrStr (getSimpleValue (some pf.propertySet)) "*"
    let prop := jsOrStr (getSimpleValue (some pf.baseName)) "*"
    let val := match pf.value with
      | some v => " = " ++ getValueDescription (some v)
      | none => ""
    "Propriété: " ++ pset ++ "." ++ prop ++ val ++ optional
  | .attr af =>
    let attrName := jsOrStr (getSimpleValue (some af.name)) "*"
    let val := match af.value with
      | some v => " = " ++ getValueDescription (some v)
      | none => ""
    "Attribut: " ++ attrName ++ val ++ optional
  | .classification cf =>
    let sys := match cf.system with
      | some s => jsTemplateStr (getSimpleValue (some s))
      | none => "*"
    let val := match cf.value with
      | some v => jsTemplateStr (getSimpleValue (some v))
      | none => "*"
    "Classification: " ++ sys ++ ":" ++ val ++ optional
  | .material mf =>
    let val := match mf.value with
      | some v => getValueDescription (some v)
      | none => "présent"
    "Matériau: " ++ val ++ optional
  | f => "Requirement: " ++ facetTypeName f ++ optional

/-- `checkRequirement`: the try/catch boundary — an exception from the facet
check is converted into a `WARNING` result carrying the error text. -/
def checkRequirement (engine : IDSAuditEngine) (elementId : ℕ)
    (req : IDSRequirement) (specName : String) : AuditResult :=
  let element := engine.getElement elementId
  let elementType := engine.getTypeName elementId
  let elementName := jsOrStr (element.bind (fun e => e.attrs "Name"))
    ("Element #" ++ toString elementId)
  let reqDescription := getRequirementDescription req
  match checkFacet engine elementId req.facet req.minOccurs with
  | .ok checkResult =>
    { status := checkResult.status
      elementId := elementId
      elementName := elementName
      elementType := elementType
      specificationName := specName
      requirementDescription := reqDescription
      message := checkResult.message
      details := checkResult.details }
  | .error e =>
    { status := .WARNING
      elementId := elementId
      elementName := elementName
      elementType := elementType
      specificationName := specName
      requirementDescription := reqDescription
      message := "Erreur lors de la vérification: " ++ e }

/-- The intersection loop of `findApplicableElements` once the running set
is non-null: each further facet filters the running id list. -/
def intersectLoop (findMatching : IDSAnyFacet → List ℕ)
    (acc : List ℕ) : List IDSAnyFacet → List ℕ
  | [] => acc
  | facet :: rest =>
    intersectLoop findMatching
      (acc.filter (fun id => (findMatching facet).contains id)) rest

/-- `findApplicableElements`: fold the per-facet matching sets by
intersection, starting from `null` (unconstrained); an empty facet list
yields the empty list. -/
def findApplicableElements (findMatching : IDSAnyFacet → List ℕ) :
    List IDSAnyFacet → List ℕ
  | [] => []
  | facet :: rest =>
    intersectLoop findMatching (jsSetDedup (findMatching facet)) rest

/-- `Math.round` on a nonnegative JavaScript number: `⌊x + 1/2⌋`. -/
def jsRound (x : ℚ) : ℤ := round x

/-- `runAudit`: resolve applicability per specification, check every
requirement of every applicable element, then aggregate the summary. -/
def runAudit (engine : IDSAuditEngine) (idsFile : IDSFile) : AuditSummary :=
  let results := idsFile.specifications.flatMap (fun spec =>
    (findApplicableElements engine.findMatchingElements spec.applicability).flatMap
      (fun elementId =>
        spec.requirements.map (fun req =>
          checkRequirement engine elementId req spec.name)))
  let testedElements := (jsSetDedup (idsFile.specifications.flatMap (fun spec =>
    findApplicableElements engine.findMatchingElements spec.applicability))).length
  let pass := (results.filter (fun r => r.status = Status.PASS)).length
  let fail := (results.filter (fun r => r.status = Status.FAIL)).length
  let warning := (results.filter (fun r => r.status = Status.WARNING)).length
  let notApplicable :=
    (results.filter (fun r => r.status = Status.NOT_APPLICABLE)).length
  let score : ℤ :=
    if pass + fail > 0 then jsRound ((pass : ℚ) / ((pass : ℚ) + (fail : ℚ)) * 100)
    else 100
  { totalElements := engine.totalElementCount
    testedElements := testedElements
    totalRequirements := results.length
    pass := pass
    fail := fail
    warning := warning
    notApplicable := notApplicable
    score := score
    results := results }

/-! ## The parser's view of the source document

The DOM is embedded structurally: each node record carries exactly the
children and attributes the parser queries.  An attribute is
`Option String` (`none` when `getAttribute` returns null); a child element
is `Option` of its node type; a `querySelectorAll` result is a `List`. -/

/-- The `<restriction>` child of a value node: `base` attribute and the
pattern/enumeration/bound children, each carrying a `value` attribute. -/
structure RestrictionNode where
  base : Option String := none
  pattern : Option (Option String) := none
  enumerations : List (Option String) := []
  minLength : Option (Option String) := none
  maxLength : Option (Option String) := none
  minInclusive : Option (Option String) := none
  maxInclusive : Option (Option String) := none
  deriving Repr, DecidableEq

/-- A facet-field value node: optional `<simpleValue>` child (with its text
content), optional `<restriction>` child, and the node's own text content. -/
structure ValueNode where
  simpleValue : Option String := none
  restriction : Option RestrictionNode := none
  text : String := ""
  deriving Repr, DecidableEq

structure EntityNode where
  name : Option ValueNode := none
  predefinedType : Option ValueNode := none
  deriving Repr, DecidableEq

structure ClassificationNode where
  system : Option ValueNode := none
  value : Option ValueNode := none
  deriving Repr, DecidableEq

structure AttributeNode where
  name : Option ValueNode := none
  value : Option ValueNode := none
  deriving Repr, DecidableEq

structure PropertyNode where
  propertySet : Option ValueNode := none
  baseName : Option ValueNode := none
  value : Option ValueNode := none
  dataType : Option String := none
  deriving Repr, DecidableEq

structure MaterialNode where
  value : Option ValueNode := none
  deriving Repr, DecidableEq

/-- `<partOf>`: a nested `<entity>` child which itself holds a `<name>`. -/
structure PartOfNode where
  entityName : Option (Option ValueNode) := none
  relation : Option String := none
  deriving Repr, DecidableEq

/-- The `minOccurs`/`maxOccurs`/`instructions` attributes of a requirement
facet element. -/
structure ReqAttrs where
  minOccurs : Option String := none
  maxOccurs : Option String := none
  instructions : Option String := none
  deriving Repr, DecidableEq

/-- An `<applicability>` or `<requirements>` container, grouped per facet
kind exactly as `parseFacets`/`parseRequirements` queries them
(`:scope > entity`, then `:scope > classification`, …). -/
structure FacetContainerNode where
  entities : List (EntityNode × ReqAttrs) := []
  classifications : List (ClassificationNode × ReqAttrs) := []
  attributes : List (AttributeNode × ReqAttrs) := []
  properties : List (PropertyNode × ReqAttrs) := []
  materials : List (MaterialNode × ReqAttrs) := []
  partOfs : List (PartOfNode × ReqAttrs) := []
  deriving Repr, DecidableEq

/-- A `<specification>` element. -/
structure SpecNode where
  name : Option String := none
  description : Option String := none
  instructions : Option String := none
  ifcVersion : Option String := none
  applicability : Option FacetContainerNode := none
  requirements : Option FacetContainerNode := none
  deriving Repr, DecidableEq

/-- The `<info>` section. -/
structure InfoNode where
  title : Option String := none
  version : Option String := none
  author : Option String := none
  date : Option String := none
  purpose : Option String := none
  deriving Repr, DecidableEq

/-- The `<ids>` root: optional `<info>` and the
`specifications > specification` nodes (`none` when the `specifications`
section is absent, in which case the query yields no nodes). -/
structure IdsElementNode where
  info : Option InfoNode := none
  specifications : Option (List SpecNode) := none
  deriving Repr, DecidableEq

/-- A parsed source document: a `parsererror` marker (with its text) when the
markup was malformed, and the `<ids>` root if present. -/
structure IDSDocNode where
  parseError : Option String := none
  ids : Option IdsElementNode := none
  deriving Repr, DecidableEq

/-- `parseValue`: `<simpleValue>` → literal; `<restriction>` → restriction
with whichever clauses are present; otherwise the trimmed text content;
otherwise undefined. -/
def parseValue (el : ValueNode) : Option IDSValue :=
  match el.simpleValue with
  | some txt => some (.simple (jsOrStr (some txt) ""))
  | none =>
    match el.restriction with
    | some rn =>
      some (.restriction
        { base := jsOrStr rn.base "xs:string"
          pattern := match rn.pattern with
            | some attr => if jsTruthyStr attr then some (jsOrStr attr "") else none
            | none => none
          enumeration :=
            if rn.enumerations.length > 0 then
              some (rn.enumerations.map (fun attr => jsOrStr attr ""))
            else none
          minLength := match rn.minLength with
            | some attr => some (parseIntJS (jsOrStr attr "0"))
            | none => none
          maxLength := match rn.maxLength with
            | some attr => some (parseIntJS (jsOrStr attr "0"))
            | none => none
          minInclusive := match rn.minInclusive with
            | some attr => some (parseFloatJS (jsOrStr attr "0"))
            | none => none
          maxInclusive := match rn.maxInclusive with
            | some attr => some (parseFloatJS (jsOrStr attr "0"))
            | none => none })
    | none =>
      let t := el.text.trim
      if t ≠ "" then some (.simple t) else none

/-- `parseEntityFacet`. -/
def parseEntityFacet (el : EntityNode) : Option IDSEntityFacet :=
  match el.name with
  | none => none
  | some nameEl =>
    match parseValue nameEl with
    | none => none
    | some name =>
      some { name := name
             predefinedType := match el.predefinedType with
               | some pt => parseValue pt
               | none => none }

/-- `parseClassificationFacet` (never null). -/
def parseClassificationFacet (el : ClassificationNode) : Option IDSClassificationFacet :=
  some { system := match el.system with
           | some s => parseValue s
           | none => none
         value := match el.value with
           | some v => parseValue v
           | none => none }

/-- `parseAttributeFacet`. -/
def parseAttributeFacet (el : AttributeNode) : Option IDSAttributeFacet :=
  match el.name with
  | none => none
  | some nameEl =>
    match parseValue nameEl with
    | none => none
    | some name =>
      some { name := name
             value := match el.value with
               | some v => parseValue v
               | none => none }

/-- `parsePropertyFacet`. -/
def parsePropertyFacet (el : PropertyNode) : Option IDSPropertyFacet :=
  match el.propertySet, el.baseName with
  | some psEl, some bnEl =>
    (match parseValue psEl, parseValue bnEl with
     | some ps, some bn =>
       some { propertySet := ps
              baseName := bn
              value := match el.value with
                | some v => parseValue v
                | none => none
              dataType := match el.dataType with
                | some d => if d = "" then none else some d
                | none => none }
     | _, _ => none)
  | _, _ => none

/-- `parseMaterialFacet` (never null). -/
def parseMaterialFacet (el : MaterialNode) : Option IDSMaterialFacet :=
  some { value := match el.value with
           | some v => parseValue v
           | none => none }

/-- `parsePartOfFacet`. -/
def parsePartOfFacet (el : PartOfNode) : Option IDSPartOfFacet :=
  match el.entityName with
  | none => none
  | some nameEl =>
    match nameEl with
    | none => none
    | some n =>
      match parseValue n with
      | none => none
      | some entity =>
        some { entity := entity
               relation := match el.relation with
                 | some r => if r = "" then none else some r
                 | none => none }

/-- `parseFacets`: all entity children, then classification, attribute,
property, material, partOf; unparsable facets are skipped. -/
def parseFacets (container : FacetContainerNode) : List IDSAnyFacet :=
  (container.entities.filterMap (fun p => (parseEntityFacet p.1).map .entity)) ++
  (container.classifications.filterMap
    (fun p => (parseClassificationFacet p.1).map .classification)) ++
  (container.attributes.filterMap (fun p => (parseAttributeFacet p.1).map .attr)) ++
  (container.properties.filterMap (fun p => (parsePropertyFacet p.1).map .property)) ++
  (container.materials.filterMap (fun p => (parseMaterialFacet p.1).map .material)) ++
  (container.partOfs.filterMap (fun p => (parsePartOfFacet p.1).map .partOf))

/-- The `parseReq` closure of `parseRequirements`: wrap a parsed facet with
its occurrence attributes (`minOccurs` default 1, `maxOccurs` default
unbounded). -/
def parseReq (attrs : ReqAttrs) (facet : Option IDSAnyFacet) : Option IDSRequirement :=
  match facet with
  | none => none
  | some f =>
    some { facet := f
           minOccurs := match attrs.minOccurs with
             | some s => if s = "" then some 1 else parseIntJS s
             | none => some 1
           maxOccurs := match attrs.maxOccurs with
             | some s =>
               if s = "unbounded" then .unbounded
               else if s = "" then .unbounded
               else .num (parseIntJS s)
             | none => .unbounded
           instructions := match attrs.instructions with
             | some s => if s = "" then none else some s
             | none => none }

/-- `parseRequirements`: same grouped traversal as `parseFacets`, each facet
wrapped with its occurrence attributes. -/
def parseRequirements (container : FacetContainerNode) : List IDSRequirement :=
  (container.entities.filterMap
    (fun p => parseReq p.2 ((parseEntityFacet p.1).map .entity))) ++
  (container.classifications.filterMap
    (fun p => parseReq p.2 ((parseClassificationFacet p.1).map .classification))) ++
  (container.attributes.filterMap
    (fun p => parseReq p.2 ((parseAttributeFacet p.1).map .attr))) ++
  (container.properties.filterMap
    (fun p => parseReq p.2 ((parsePropertyFacet p.1).map .property))) ++
  (container.materials.filterMap
    (fun p => parseReq p.2 ((parseMaterialFacet p.1).map .material))) ++
  (container.partOfs.filterMap
    (fun p => parseReq p.2 ((parsePartOfFacet p.1).map .partOf)))

/-- `parseSpecification`: returns `null` (dropping the node) when the parsed
applicability list is empty. -/
def parseSpecification (specEl : SpecNode) : Option IDSSpecification :=
  let name := jsOrStr specEl.name "Unnamed Specification"
  let description := match specEl.description with
    | some s => if s = "" then none else some s
    | none => none
  let instructions := match specEl.instructions with
    | some s => if s = "" then none else some s
    | none => none
  let ifcVersion := match specEl.ifcVersion with
    | some s => if s = "" then none else some (s.splitOn " ")
    | none => none
  let applicability := match specEl.applicability with
    | some c => parseFacets c
    | none => []
  let requirements := match specEl.requirements with
    | some c => parseRequirements c
    | none => []
  if applicability.length = 0 then none
  else
    some { name := name
           description := description
           instructions := instructions
           ifcVersion := ifcVersion
           applicability := applicability
           requirements := requirements }

/-- `parseIDS`: throws (an `Except.error`) on malformed markup or a missing
`<ids>` root; otherwise builds the document, defaulting absent info
fields and skipping specification nodes that parse to null. -/
def parseIDS (doc : IDSDocNode) : Except String IDSFile :=
  match doc.parseError with
  | some errText => .error ("Invalid XML: " ++ errText)
  | none =>
    match doc.ids with
    | none => .error "Invalid IDS: No <ids> root element found"
    | some idsElement =>
      let title := jsOrStr (idsElement.info.bind (·.title)) "Untitled IDS"
      let version := match idsElement.info.bind (·.version) with
        | some s => if s = "" then none else some s
        | none => none
      let author := match idsElement.info.bind (·.author) with
        | some s => if s = "" then none else some s
        | none => none
      let date := match idsElement.info.bind (·.date) with
        | some s => if s = "" then none else some s
        | none => none
      let purpose := match idsElement.info.bind (·.purpose) with
        | some s => if s = "" then none else some s
        | none => none
      let specEls := match idsElement.specifications with
        | some l => l
        | none => []
      .ok { title := title
            version := version
            author := author
            date := date
            purpose := purpose
            specifications := specEls.filterMap parseSpecification }

/-! ## Helper lemmas -/

/-- Membership is preserved by the `Set`-style de-duplication. -/
theorem mem_jsSetDedup_foldl (l : List ℕ) :
    ∀ (acc : List ℕ) (x : ℕ),
      x ∈ l.foldl (fun acc x => if x ∈ acc then acc else acc ++ [x]) acc ↔
        x ∈ acc ∨ x ∈ l := by
  induction l with
  | nil => intro acc x; simp
  | cons y ys ih =>
    intro acc x
    rw [List.foldl_cons, ih]
    by_cases hy : y ∈ acc
    · simp only [if_pos hy, List.mem_cons]
      constructor
      · rintro (h | h)
        · exact Or.inl h
        · exact Or.inr (Or.inr h)
      · rintro (h | h | h)
        · exact Or.inl h
        · exact Or.inl (h ▸ hy)
        · exact Or.inr h
    · simp only [if_neg hy, List.mem_append, List.mem_singleton, List.mem_cons]
      tauto

theorem mem_jsSetDedup (l : List ℕ) (x : ℕ) : x ∈ jsSetDedup l ↔ x ∈ l := by
  rw [jsSetDedup, mem_jsSetDedup_foldl]
  simp

/-- Membership in the running intersection of `findApplicableElements`. -/
theorem mem_intersectLoop (findMatching : IDSAnyFacet → List ℕ) :
    ∀ (l : List IDSAnyFacet) (acc : List ℕ) (id : ℕ),
      id ∈ intersectLoop findMatching acc l ↔
        id ∈ acc ∧ ∀ fc ∈ l, id ∈ findMatching fc := by
  intro l
  induction l with
  | nil => intro acc id; simp [intersectLoop]
  | cons fc rest ih =>
    intro acc id
    rw [intersectLoop, ih]
    simp only [List.mem_filter, List.contains, List.elem_iff, List.mem_cons]
    constructor
    · rintro ⟨⟨ha, hm⟩, hrest⟩
      refine ⟨ha, ?_⟩
      rintro fc' (rfl | hfc')
      · exact hm
      · exact hrest fc' hfc'
    · rintro ⟨ha, hall⟩
      exact ⟨⟨ha, hall fc (Or.inl rfl)⟩, fun fc' h => hall fc' (Or.inr h)⟩

/-- The rounded percentage of a pass/(pass+fail) ratio lies in `[0, 100]`. -/
theorem jsRound_ratio_bounds (p f : ℕ) (h : 0 < p + f) :
    0 ≤ jsRound ((p : ℚ) / ((p : ℚ) + (f : ℚ)) * 100) ∧
      jsRound ((p : ℚ) / ((p : ℚ) + (f : ℚ)) * 100) ≤ 100 := by
  have hden : (0 : ℚ) < (p : ℚ) + (f : ℚ) := by
    have : (0 : ℚ) < ((p + f : ℕ) : ℚ) := by exact_mod_cast h
    push_cast at this
    linarith
  have hq0 : (0 : ℚ) ≤ (p : ℚ) / ((p : ℚ) + (f : ℚ)) * 100 := by positivity
  have hq100 : (p : ℚ) / ((p : ℚ) + (f : ℚ)) * 100 ≤ 100 := by
    have hle : (p : ℚ) / ((p : ℚ) + (f : ℚ)) ≤ 1 := by
      rw [div_le_one hden]
      have : (0 : ℚ) ≤ (f : ℚ) := by positivity
      linarith
    nlinarith
  constructor
  · rw [jsRound, round_eq]
    have h1 : (0 : ℤ) = ⌊(1 / 2 : ℚ)⌋ := by
      symm
      rw [Int.floor_eq_iff]
      norm_num
    rw [h1]
    apply Int.floor_le_floor
    linarith
  · rw [jsRound, round_eq]
    have h1 : ⌊(100 + 1 / 2 : ℚ)⌋ = 100 := by
      rw [Int.floor_eq_iff]
      norm_num
    calc ⌊(p : ℚ) / ((p : ℚ) + (f : ℚ)) * 100 + 1 / 2⌋
        ≤ ⌊(100 + 1 / 2 : ℚ)⌋ := Int.floor_le_floor (by linarith)
      _ = 100 := h1

/-- A specification surviving `parseSpecification` has facets in its
applicability list. -/
theorem parseSpecification_some_applicability_ne_nil (specEl : SpecNode)
    (spec : IDSSpecification) (h : parseSpecification specEl = some spec) :
    spec.applicability ≠ [] := by
  rw [parseSpecification] at h
  split at h
  · exact absurd h (by simp)
  · rename_i hlen
    cases h
    intro hnil
    have hred : (match specEl.applicability with
        | some c => parseFacets c
        | none => []) = [] := hnil
    exact hlen (by rw [hred]; rfl)

/-- Reduction of the exception-monad bind on a successful computation. -/
theorem exceptBind_ok {α β : Type} (a : α) (f : α → Except String β) :
    (Except.ok a >>= f) = f a := rfl

/-- Extract the status of a facet-check result that did not throw. -/
def statusOfE (r : Except String CheckOutcome) : Option Status :=
  match r with
  | .ok o => some o.status
  | .error _ => none

/-- A stub model-access engine used to instantiate theorems at concrete
inputs. -/
def stubEngine : IDSAuditEngine where
  getElement := fun _ => none
  getTypeName := fun _ => "Unknown"
  getPropertyValue := fun _ _ _ => .ok none
  getClassifications := fun _ => .ok []
  getMaterials := fun _ => .ok []
  findMatchingElements := fun _ => []
  totalElementCount := 0
  regexTest := fun _ _ => false

/-! ## The claims -/

/-- C1: any exception raised while checking a requirement's facet is caught
by `checkRequirement` and converted into a `WARNING` result whose message
carries the error text; `checkRequirement` (and hence `runAudit`, which is
total by construction) never lets an exception escape. -/
theorem checkRequirement_catches_exception (engine : IDSAuditEngine)
    (elementId : ℕ) (req : IDSRequirement) (specName : String) (e : String)
    (h : checkFacet engine elementId req.facet req.minOccurs = .error e) :
    (checkRequirement engine elementId req specName).status = .WARNING ∧
      (checkRequirement engine elementId req specName).message =
        "Erreur lors de la vérification: " ++ e := by
  rw [checkRequirement, h]
  exact ⟨rfl, rfl⟩

/-- Witness for C1: a property-value lookup that throws is reported as a
`WARNING` result carrying the error text. -/
theorem checkRequirement_catches_exception_witness :
    (checkRequirement
        { stubEngine with getPropertyValue := fun _ _ _ => .error "boom" } 7
        { facet := .property { propertySet := .simple "Pset", baseName := .simple "Prop" }
          minOccurs := some 1
          maxOccurs := .unbounded } "Spec").status = .WARNING ∧
      (checkRequirement
        { stubEngine with getPropertyValue := fun _ _ _ => .error "boom" } 7
        { facet := .property { propertySet := .simple "Pset", baseName := .simple "Prop" }
          minOccurs := some 1
          maxOccurs := .unbounded } "Spec").message =
        "Erreur lors de la vérification: boom" :=
  checkRequirement_catches_exception _ 7 _ "Spec" "boom" rfl

/-- C2: the summary's score is `round(pass / (pass+fail) * 100)` over the
PASS and FAIL counts only (WARNING and NOT_APPLICABLE results are in
neither numerator nor denominator), is `100` when `pass + fail = 0`, and
always lies in `[0, 100]`. -/
theorem runAudit_score_spec (engine : IDSAuditEngine) (idsFile : IDSFile) :
    (runAudit engine idsFile).pass =
      ((runAudit engine idsFile).results.filter
        (fun r => r.status = Status.PASS)).length ∧
    (runAudit engine idsFile).fail =
      ((runAudit engine idsFile).results.filter
        (fun r => r.status = Status.FAIL)).length ∧
    (runAudit engine idsFile).score =
      (if (runAudit engine idsFile).pass + (runAudit engine idsFile).fail > 0 then
        jsRound (((runAudit engine idsFile).pass : ℚ) /
          (((runAudit engine idsFile).pass : ℚ) + ((runAudit engine idsFile).fail : ℚ)) * 100)
      else 100) ∧
    ((runAudit engine idsFile).pass + (runAudit engine idsFile).fail = 0 →
      (runAudit engine idsFile).score = 100) ∧
    0 ≤ (runAudit engine idsFile).score ∧ (runAudit engine idsFile).score ≤ 100 := by
  have hscore : (runAudit engine idsFile).score =
      (if (runAudit engine idsFile).pass + (runAudit engine idsFile).fail > 0 then
        jsRound (((runAudit engine idsFile).pass : ℚ) /
          (((runAudit engine idsFile).pass : ℚ) + ((runAudit engine idsFile).fail : ℚ)) * 100)
      else 100) := rfl
  refine ⟨rfl, rfl, hscore, ?_, ?_⟩
  · intro h0
    rw [hscore, if_neg (by omega)]
  · rw [hscore]
    by_cases hpos :
      (runAudit engine idsFile).pass + (runAudit engine idsFile).fail > 0
    · rw [if_pos hpos]
      exact jsRound_ratio_bounds _ _ hpos
    · rw [if_neg hpos]
      exact ⟨by norm_num, by norm_num⟩

/-- Witness for C2: on a document with no specifications there are no
contested requirements and the score is vacuously 100 (and in bounds). -/
theorem runAudit_score_spec_witness :
    (runAudit stubEngine { title := "t", specifications := [] }).pass +
        (runAudit stubEngine { title := "t", specifications := [] }).fail = 0 ∧
      (runAudit stubEngine { title := "t", specifications := [] }).score = 100 ∧
      0 ≤ (runAudit stubEngine { title := "t", specifications := [] }).score ∧
      (runAudit stubEngine { title := "t", specifications := [] }).score ≤ 100 :=
  ⟨rfl,
   (runAudit_score_spec stubEngine { title := "t", specifications := [] }).2.2.2.1 rfl,
   (runAudit_score_spec stubEngine { title := "t", specifications := [] }).2.2.2.2⟩

/-- C3: `findApplicableElements` is the intersection of the per-facet
matching sets — an id is in the result of a non-empty facet list iff it is
in every facet's matching set; two facets with disjoint matching sets
resolve to nothing; and an empty facet list yields the empty list, never
the whole model. -/
theorem findApplicableElements_intersection (findMatching : IDSAnyFacet → List ℕ) :
    findApplicableElements findMatching [] = [] ∧
    (∀ (l : List IDSAnyFacet) (id : ℕ), l ≠ [] →
      (id ∈ findApplicableElements findMatching l ↔
        ∀ fc ∈ l, id ∈ findMatching fc)) ∧
    (∀ fc₁ fc₂ : IDSAnyFacet,
      (∀ id : ℕ, ¬(id ∈ findMatching fc₁ ∧ id ∈ findMatching fc₂)) →
      findApplicableElements findMatching [fc₁, fc₂] = []) := by
  have hmem : ∀ (l : List IDSAnyFacet) (id : ℕ), l ≠ [] →
      (id ∈ findApplicableElements findMatching l ↔
        ∀ fc ∈ l, id ∈ findMatching fc) := by
    intro l id hne
    match l with
    | [] => exact absurd rfl hne
    | fc :: rest =>
      rw [findApplicableElements, mem_intersectLoop, mem_jsSetDedup]
      simp only [List.mem_cons]
      constructor
      · rintro ⟨h1, hrest⟩
        rintro fc' (rfl | hfc')
        · exact h1
        · exact hrest fc' hfc'
      · intro hall
        exact ⟨hall fc (Or.inl rfl), fun fc' h => hall fc' (Or.inr h)⟩
  refine ⟨rfl, hmem, ?_⟩
  intro fc₁ fc₂ hdisj
  rw [List.eq_nil_iff_forall_not_mem]
  intro id hid
  rw [hmem [fc₁, fc₂] id (by simp)] at hid
  exact hdisj id ⟨hid fc₁ (by simp), hid fc₂ (by simp)⟩

/-- Witness for C3: with facet-dependent matching sets `[1, 2]` and `[3, 4]`
(disjoint), the two-facet resolution is empty; a singleton facet list
resolves by membership in that facet's set. -/
theorem findApplicableElements_intersection_witness :
    findApplicableElements
        (fun fc => match fc with
          | .material _ => [1, 2]
          | .entity _ => [3, 4]
          | _ => [])
        [.material {}, .entity { name := .simple "WALL" }] = [] ∧
      (1 ∈ findApplicableElements
        (fun fc => match fc with
          | .material _ => [1, 2]
          | .entity _ => [3, 4]
          | _ => []) [.material {}] ↔
        ∀ fc ∈ [IDSAnyFacet.material {}],
          1 ∈ (fun fc => match fc with
            | IDSAnyFacet.material _ => [1, 2]
            | IDSAnyFacet.entity _ => [3, 4]
            | _ => ([] : List ℕ)) fc) :=
  ⟨(findApplicableElements_intersection _).2.2 _ _
      (by intro id h; simp at h; omega),
   (findApplicableElements_intersection _).2.1 [.material {}] 1 (by simp)⟩

/-- C4: a specification node whose parsed applicability facet list is empty
is dropped by `parseSpecification` (it returns null), and consequently no
specification with an empty applicability list appears in a parsed
Document. -/
theorem parseIDS_drops_empty_applicability :
    (∀ specEl : SpecNode,
      (match specEl.applicability with
        | some c => parseFacets c
        | none => []) = [] →
      parseSpecification specEl = none) ∧
    (∀ (doc : IDSDocNode) (file : IDSFile), parseIDS doc = .ok file →
      ∀ spec ∈ file.specifications, spec.applicability ≠ []) := by
  constructor
  · intro specEl hempty
    rw [parseSpecification]
    rw [hempty]
    rfl
  · intro doc file hok spec hmem
    rw [parseIDS] at hok
    split at hok
    · exact absurd hok (by simp)
    · split at hok
      · exact absurd hok (by simp)
      · cases hok
        simp only at hmem
        rw [List.mem_filterMap] at hmem
        obtain ⟨el, _, hel⟩ := hmem
        exact parseSpecification_some_applicability_ne_nil el spec hel

/-- Witness for C4: a specification node with no applicability section parses
to null; a document containing one well-formed specification (a material
applicability facet) parses, and that specification's applicability list
is non-empty. -/
theorem parseIDS_drops_empty_applicability_witness :
    parseSpecification {} = none ∧
      (IDSSpecification.mk "Unnamed Specification" none none none
        [.material {}] []).applicability ≠ [] :=
  ⟨parseIDS_drops_empty_applicability.1 {} rfl,
   parseIDS_drops_empty_applicability.2
     { parseError := none
       ids := some { info := none
                     specifications := some [{ applicability := some { materials := [({}, {})] } }] } }
     { title := "Untitled IDS"
       specifications := [{ name := "Unnamed Specification"
                            applicability := [.material {}]
                            requirements := [] }] }
     rfl _ (by simp)⟩

/-- C5: a null/absent actual value never matches any constraint (literal or
restriction, even one with no fields); and a wholly absent constraint is
"don't care" — the engine's call sites accept any non-null value against
an undefined constraint. -/
theorem matchesValue_null_never_absent_always
    (regexTest : String → String → Bool) :
    (∀ expected : IDSValue, matchesValue regexTest none expected = false) ∧
    (∀ v : String, matchesOptValue regexTest (some v) none = true) :=
  ⟨fun _ => rfl, fun _ => rfl⟩

/-- C6: a Restriction with none of pattern, enumeration, minLength,
maxLength, minInclusive, maxInclusive set matches any non-null value
(presence-only); and when the actual value does not parse as a number the
numeric bounds are skipped — the verdict is the same as if they were
absent, never a failure. -/
theorem matchesValue_empty_restriction_and_nonnumeric
    (regexTest : String → String → Bool) :
    (∀ (v base : String),
      matchesValue regexTest (some v) (.restriction { base := base }) = true) ∧
    (∀ (v : String) (r : IDSRestriction), parseFloatJS v = none →
      matchesValue regexTest (some v) (.restriction r) =
        matchesValue regexTest (some v)
          (.restriction { r with minInclusive := none, maxInclusive := none })) := by
  constructor
  · intro v base
    rw [matchesValue]
    cases hpf : parseFloatJS v <;> simp [jsTruthyStr, hpf]
  · intro v r hpf
    obtain ⟨base, pat, en, ml, xl, mi, xi⟩ := r
    cases en with
    | some es => rfl
    | none =>
      rw [matchesValue, matchesValue]
      simp only
      split
      · rfl
      · rw [hpf]

/-- Witness for C6: the empty restriction accepts a value, and on the
non-numeric value "abc" a restriction differing only in its numeric
bounds gives the same verdict as the bound-free one. -/
theorem matchesValue_empty_restriction_and_nonnumeric_witness :
    matchesValue (fun _ _ => false) (some "x")
        (.restriction { base := "xs:string" }) = true ∧
      matchesValue (fun _ _ => false) (some "abc")
          (.restriction { base := "xs:string", minInclusive := some (some 5)
                          maxInclusive := some (some 9) }) =
        matchesValue (fun _ _ => false) (some "abc")
          (.restriction { base := "xs:string" }) :=
  ⟨(matchesValue_empty_restriction_and_nonnumeric (fun _ _ => false)).1 "x" "xs:string",
   (matchesValue_empty_restriction_and_nonnumeric (fun _ _ => false)).2 "abc"
     { base := "xs:string", minInclusive := some (some 5), maxInclusive := some (some 9) }
     rfl⟩

/-- C7: when a Restriction declares both an enumeration and a pattern, a
non-null actual value is judged solely by case-insensitive membership in
the enumeration — the pattern (for any regex semantics), the length
bounds and the numeric bounds are never consulted. -/
theorem matchesValue_enumeration_precedence
    (regexTest : String → String → Bool) (v base p : String)
    (es : List String) (ml xl mi xi : Option JSNum) :
    matchesValue regexTest (some v)
        (.restriction { base := base, pattern := some p, enumeration := some es
                        minLength := ml, maxLength := xl
                        minInclusive := mi, maxInclusive := xi }) =
      es.any (fun e => v.toLower == e.toLower) := rfl

/-- C8: for property and attribute requirements whose targeted value
resolves to absent, `minOccurs = 0` yields PASS (optional, absent,
allowed) and `minOccurs ≥ 1` yields FAIL (missing). -/
theorem check_absent_value_minOccurs (engine : IDSAuditEngine)
    (elementId : ℕ) (pf : IDSPropertyFacet) (af : IDSAttributeFacet)
    (hprop : engine.getPropertyValue elementId
      (jsOrStr (getSimpleValue (some pf.propertySet)) "")
      (jsOrStr (getSimpleValue (some pf.baseName)) "") = .ok none)
    (hattr : (engine.getElement elementId).bind
      (fun e => e.attrs (jsOrStr (getSimpleValue (some af.name)) "")) = none) :
    statusOfE (checkPropertyFacet engine elementId pf (some 0)) = some .PASS ∧
    (∀ q : ℚ, 1 ≤ q →
      statusOfE (checkPropertyFacet engine elementId pf (some q)) = some .FAIL) ∧
    (checkAttributeFacet engine elementId af (some 0)).status = .PASS ∧
    (∀ q : ℚ, 1 ≤ q →
      (checkAttributeFacet engine elementId af (some q)).status = .FAIL) := by
  refine ⟨?_, ?_, ?_, ?_⟩
  · rw [checkPropertyFacet]
    rw [hprop]
    rfl
  · intro q hq
    have hne : ¬ (some q = some (0 : ℚ)) := by
      simp only [Option.some.injEq]
      intro h0
      rw [h0] at hq
      norm_num at hq
    rw [checkPropertyFacet]
    rw [hprop]
    rw [exceptBind_ok]
    simp only [if_neg hne]
    rfl
  · rw [checkAttributeFacet, hattr]
    rfl
  · intro q hq
    have hne : ¬ (some q = some (0 : ℚ)) := by
      simp only [Option.some.injEq]
      intro h0
      rw [h0] at hq
      norm_num at hq
    rw [checkAttributeFacet, hattr]
    simp only [if_neg hne]

/-- Witness for C8: against a model where the targeted property and
attribute are absent, `minOccurs = 0` passes and `minOccurs = 2` fails
for both facet kinds. -/
theorem check_absent_value_minOccurs_witness :
    statusOfE (checkPropertyFacet stubEngine 3
        { propertySet := .simple "Pset_WallCommon", baseName := .simple "LoadBearing" }
        (some 0)) = some .PASS ∧
      statusOfE (checkPropertyFacet stubEngine 3
        { propertySet := .simple "Pset_WallCommon", baseName := .simple "LoadBearing" }
        (some 2)) = some .FAIL ∧
      (checkAttributeFacet stubEngine 3 { name := .simple "Name" } (some 0)).status =
        .PASS ∧
      (checkAttributeFacet stubEngine 3 { name := .simple "Name" } (some 2)).status =
        .FAIL := by
  have h := check_absent_value_minOccurs stubEngine 3
    { propertySet := .simple "Pset_WallCommon", baseName := .simple "LoadBearing" }
    { name := .simple "Name" } rfl rfl
  exact ⟨h.1, h.2.1 2 (by norm_num), h.2.2.1, h.2.2.2 2 (by norm_num)⟩

/-- C9 (counterexample): a well-formed document with an `<ids>` root but no
`specifications` section (and no `info` section) does NOT raise a
FormatError — `parseIDS` succeeds with default info fields and an empty
specification list, refuting the claim that a missing specifications
section root raises. -/
theorem parseIDS_missing_specifications_no_error :
    parseIDS { parseError := none, ids := some { info := none, specifications := none } } =
      .ok { title := "Untitled IDS", version := none, author := none
            date := none, purpose := none, specifications := [] } := rfl

/-- C9 (amended): `parseIDS` fails — with an error, returning no partial
document — exactly when the source is not well-formed markup (a parser
error node is present) or the `<ids>` root element is missing; a missing
`info` or `specifications` section does not raise. -/
theorem parseIDS_error_iff (doc : IDSDocNode) :
    (∃ e, parseIDS doc = .error e) ↔
      (doc.parseError ≠ none ∨ doc.ids = none) := by
  constructor
  · rintro ⟨e, he⟩
    rw [parseIDS] at he
    split at he
    · rename_i hpe
      exact Or.inl (by rw [hpe]; simp)
    · split at he
      · rename_i hids
        exact Or.inr hids
      · exact absurd he (by simp)
  · intro h
    rw [parseIDS]
    rcases h with hpe | hids
    · match hval : doc.parseError with
      | some t => exact ⟨"Invalid XML: " ++ t, rfl⟩
      | none => exact absurd hval hpe
    · rw [hids]
      match hval : doc.parseError with
      | some t => exact ⟨"Invalid XML: " ++ t, rfl⟩
      | none => exact ⟨"Invalid IDS: No <ids> root element found", rfl⟩

/-- Witness for C9 (amended): a document whose markup failed to parse is
rejected with an error. -/
theorem parseIDS_error_iff_witness :
    ∃ e, parseIDS { parseError := some "bad token", ids := none } = .error e :=
  (parseIDS_error_iff { parseError := some "bad token", ids := none }).mpr
    (Or.inl (by simp))

/-- C10: the result of `checkRequirement` is independent of the
requirement's `maxOccurs` field — two requirements identical except for
`maxOccurs` yield identical AuditResults (the field is parsed but never
consulted during checking). -/
theorem checkRequirement_maxOccurs_independent (engine : IDSAuditEngine)
    (elementId : ℕ) (facet : IDSAnyFacet) (minOccurs : JSNum)
    (mx₁ mx₂ : MaxOccurs) (instr : Option String) (specName : String) :
    checkRequirement engine elementId
        { facet := facet, minOccurs := minOccurs, maxOccurs := mx₁
          instructions := instr } specName =
      checkRequirement engine elementId
        { facet := facet, minOccurs := minOccurs, maxOccurs := mx₂
          instructions := instr } specName := rfl

end IDSViewer
